import Mathlib

/-
Shallow embedding of build_texas_road_network.py.

Modelling choices, shared by all definitions below:
- a cell of the attribute table is PyVal := Option String; the Python value
  None is the Lean none, every other cell is carried through str() as the
  string it prints as (a pandas NaN cell prints and floats exactly like the
  string "nan", so it is represented by some "nan");
- Python floats are PyFloat: an exact rational, NaN, or a signed infinity.
  Rounding of finite values is not modelled (arithmetic is exact on the
  rationals); the special values NaN and infinity, which the script can
  produce and compare, are modelled explicitly with IEEE comparison rules;
- the builtin float(str) parser is modelled for ASCII strings: optional
  surrounding whitespace, optional sign, a digit/dot mantissa with at least
  one digit and at most one dot, an optional exponent part, and the
  case-insensitive special words nan, inf and infinity. Underscore digit
  separators and non-ASCII digits are outside the model's scope;
- str.lower / str.strip / str.upper are modelled on ASCII by explicit
  character-list maps (lowerChar, upperChar, stripChars below);
- code that can raise returns Except String; the error strings stand for the
  ValueError exceptions the CPython runtime raises.
-/

abbrev PyVal := Option String

abbrev Pt := ℚ × ℚ

abbrev Segment := Pt × Pt × ℚ

/-- Model of what str() prints for a cell: None prints as the word None. -/
def pyStr (v : PyVal) : String :=
  match v with
  | none => "None"
  | some s => s

/-- ASCII lowercase of one character. -/
def lowerChar (c : Char) : Char :=
  if 65 ≤ c.toNat && c.toNat ≤ 90 then Char.ofNat (c.toNat + 32) else c

/-- ASCII uppercase of one character. -/
def upperChar (c : Char) : Char :=
  if 97 ≤ c.toNat && c.toNat ≤ 122 then Char.ofNat (c.toNat - 32) else c

/-- ASCII whitespace stripped by str.strip and accepted around float literals. -/
def isSpaceChar (c : Char) : Bool :=
  c = ' ' || c = '\t' || c = '\n' || c = '\r' || c = '\x0b' || c = '\x0c'

def stripChars (l : List Char) : List Char :=
  ((l.dropWhile isSpaceChar).reverse.dropWhile isSpaceChar).reverse

def pyLower (s : String) : String := String.mk (s.data.map lowerChar)

def pyStrip (s : String) : String := String.mk (stripChars s.data)

def pyUpper (s : String) : String := String.mk (s.data.map upperChar)

/-- Model of a Python float value: exact rational, NaN, or a signed infinity. -/
inductive PyFloat where
  | num (q : ℚ)
  | nan
  | inf
  | ninf
deriving DecidableEq

/-- Value of a list of decimal digit characters read as a natural number. -/
def digitsToNat (l : List Char) : ℕ :=
  l.foldl (fun acc c => 10 * acc + (c.toNat - Char.toNat '0')) 0

def allDigits (l : List Char) : Bool := l.all Char.isDigit

/-- Value of a digit/dot mantissa, defined exactly when the builtin float
accepts it: only digits and dots, at least one digit, at most one dot. -/
def mantissaToRat (l : List Char) : Option ℚ :=
  if (l.all (fun c => c.isDigit || c = '.'))
      && ((l.filter (fun c => c = '.')).length ≤ 1)
      && (1 ≤ (l.filter Char.isDigit).length) then
    some ((digitsToNat (l.takeWhile (fun c => c ≠ '.')) : ℚ)
      + (digitsToNat ((l.dropWhile (fun c => c ≠ '.')).drop 1) : ℚ)
          / (10 : ℚ) ^ ((l.dropWhile (fun c => c ≠ '.')).drop 1).length)
  else
    none

/-- Exponent part of a float literal: optional sign then at least one digit. -/
def expToInt (l : List Char) : Option ℤ :=
  match l with
  | '+' :: rest => if 1 ≤ rest.length && allDigits rest then some (digitsToNat rest : ℤ) else none
  | '-' :: rest => if 1 ≤ rest.length && allDigits rest then some (-(digitsToNat rest : ℤ)) else none
  | _ => if 1 ≤ l.length && allDigits l then some (digitsToNat l : ℤ) else none

/-- Signed mantissa with optional exponent, after sign and specials are handled. -/
def pyFloatCore (sgn : ℚ) (body : List Char) : Option PyFloat :=
  match body.dropWhile (fun c => c ≠ 'e') with
  | [] => (mantissaToRat (body.takeWhile (fun c => c ≠ 'e'))).map (fun q => PyFloat.num (sgn * q))
  | _ :: expPart =>
    match mantissaToRat (body.takeWhile (fun c => c ≠ 'e')), expToInt expPart with
    | some q, some e => some (PyFloat.num (sgn * q * (10 : ℚ) ^ e))
    | _, _ => none

/-- Model of the builtin float(str): none is the ValueError outcome. -/
def pyFloatOfString (s : String) : Option PyFloat :=
  match (pyStrip (pyLower s)).data with
  | '+' :: rest =>
    if rest = "nan".data then some PyFloat.nan
    else if rest = "inf".data || rest = "infinity".data then some PyFloat.inf
    else pyFloatCore 1 rest
  | '-' :: rest =>
    if rest = "nan".data then some PyFloat.nan
    else if rest = "inf".data || rest = "infinity".data then some PyFloat.ninf
    else pyFloatCore (-1) rest
  | l =>
    if l = "nan".data then some PyFloat.nan
    else if l = "inf".data || l = "infinity".data then some PyFloat.inf
    else pyFloatCore 1 l

/-- Comparison speed_kph less-or-equal zero with IEEE NaN rules: NaN compares false. -/
def pyLeZero : PyFloat → Bool
  | PyFloat.num q => decide (q ≤ 0)
  | PyFloat.nan => false
  | PyFloat.inf => false
  | PyFloat.ninf => true

/-- Strictly-positive test on a float value: NaN is not positive. -/
def pyGtZero : PyFloat → Bool
  | PyFloat.num q => decide (0 < q)
  | PyFloat.nan => false
  | PyFloat.inf => true
  | PyFloat.ninf => false

/-- Float times an exact rational constant, with IEEE special-value rules. -/
def pyMulQ : PyFloat → ℚ → PyFloat
  | PyFloat.num q, c => PyFloat.num (q * c)
  | PyFloat.nan, _ => PyFloat.nan
  | PyFloat.inf, c => if 0 < c then PyFloat.inf else if c < 0 then PyFloat.ninf else PyFloat.nan
  | PyFloat.ninf, c => if 0 < c then PyFloat.ninf else if c < 0 then PyFloat.inf else PyFloat.nan

/-- Float divided by an exact rational constant, numpy semantics (no exception;
division of a finite nonzero value by zero gives a signed infinity). -/
def pyDivByQ : PyFloat → ℚ → PyFloat
  | PyFloat.num q, c =>
    if c = 0 then (if q = 0 then PyFloat.nan else if 0 < q then PyFloat.inf else PyFloat.ninf)
    else PyFloat.num (q / c)
  | PyFloat.nan, _ => PyFloat.nan
  | PyFloat.inf, c => if 0 ≤ c then PyFloat.inf else PyFloat.ninf
  | PyFloat.ninf, c => if 0 ≤ c then PyFloat.ninf else PyFloat.inf

/-- Exact rational divided by a float, numpy semantics. -/
def pyDivQF (a : ℚ) : PyFloat → PyFloat
  | PyFloat.num q =>
    if q = 0 then (if a = 0 then PyFloat.nan else if 0 < a then PyFloat.inf else PyFloat.ninf)
    else PyFloat.num (a / q)
  | PyFloat.nan => PyFloat.nan
  | PyFloat.inf => PyFloat.num 0
  | PyFloat.ninf => PyFloat.num 0

/-- One attribute row: ordered column-name / cell pairs, as iterated by row.index. -/
abbrev Row := List (String × PyVal)

/-- First cell whose column name satisfies the predicate, as the loops over
row.index followed by the row[col] lookup produce. -/
def findVal (row : Row) (p : String → Bool) : Option PyVal :=
  (List.find? (fun kv => p kv.1) row).map (fun kv => kv.2)

def isMaxspeedCol (c : String) : Bool := pyLower c = "maxspeed"

def isHighwayCol (c : String) : Bool := pyLower c = "highway" || pyLower c = "fclass"

def isOnewayCol (c : String) : Bool := pyLower c = "oneway"

/-- DEFAULT_SPEEDS_KPH table from the script, verbatim. -/
def DEFAULT_SPEEDS_KPH : List (String × ℚ) :=
  [("motorway", 110), ("trunk", 100), ("primary", 90), ("secondary", 80), ("tertiary", 70),
   ("unclassified", 60), ("residential", 40), ("living_street", 25), ("pedestrian", 10),
   ("motorway_link", 80), ("trunk_link", 70), ("primary_link", 70), ("secondary_link", 60),
   ("tertiary_link", 50),
   ("service", 30), ("track", 30), ("track_grade1", 40), ("track_grade2", 35),
   ("track_grade3", 30), ("track_grade4", 25), ("track_grade5", 20),
   ("bridleway", 10), ("cycleway", 20), ("footway", 5), ("path", 8), ("steps", 3),
   ("busway", 50)]

/-- Dict lookup DEFAULT_SPEEDS_KPH.get(road_type, 50.0); the None key is absent. -/
def default_speed_get (road_type : PyVal) : ℚ :=
  match road_type with
  | none => 50
  | some s =>
    match List.find? (fun kv => kv.1 = s) DEFAULT_SPEEDS_KPH with
    | some kv => kv.2
    | none => 50

def floatValueError : String := "ValueError: could not convert string to float"

/-- Digit/dot run extraction loop of parse_maxspeed: accumulate digit and dot
characters, and stop at the first other character once the accumulator is
non-empty. -/
def extract_num_chars : List Char → List Char → List Char
  | [], acc => acc
  | c :: rest, acc =>
    if c.isDigit || c = '.' then extract_num_chars rest (acc ++ [c])
    else if acc ≠ [] then acc
    else extract_num_chars rest acc

def startsWithChars : List Char → List Char → Bool
  | _, [] => true
  | [], _ :: _ => false
  | a :: as, b :: bs => (a = b) && startsWithChars as bs

def hasSubChars (s pat : List Char) : Bool :=
  match s with
  | [] => startsWithChars [] pat
  | _ :: rest => startsWithChars s pat || hasSubChars rest pat

/-- Substring containment test, modelling the Python expression pat in s. -/
def containsSub (s pat : String) : Bool := hasSubChars s.data pat.data

/-- parse_maxspeed from the script. It returns ok none where the Python
function returns None, ok (some q) where it returns the float q, and error
where float(num) raises ValueError (num made only of dots, or with several
dots). The mph factor 1.60934 is the exact rational 160934/100000. -/
def parse_maxspeed (value : PyVal) : Except String (Option ℚ) :=
  match value with
  | none => Except.ok none
  | some v =>
    if pyStrip (pyLower v) = "" || pyStrip (pyLower v) = "nan" || pyStrip (pyLower v) = "none" then
      Except.ok none
    else
      match extract_num_chars (pyStrip (pyLower v)).data [] with
      | [] => Except.ok none
      | num =>
        match mantissaToRat num with
        | none => Except.error floatValueError
        | some speed =>
          if containsSub (pyStrip (pyLower v)) "mph" then
            Except.ok (some (speed * (160934 / 100000 : ℚ)))
          else
            Except.ok (some speed)

/-- Step 1 of infer_speed_kph: the maxspeed column attempt. Returns ok none
when speed stays None, ok (some f) when a speed was obtained, and error when
the uncaught ValueError escapes from parse_maxspeed. -/
def infer_maxspeed_step (row : Row) : Except String (Option PyFloat) :=
  match findVal row isMaxspeedCol with
  | none => Except.ok none
  | some none => Except.ok none
  | some (some vs) =>
    if pyStrip vs = "" then Except.ok none
    else
      match pyFloatOfString vs with
      | some f => Except.ok (some f)
      | none =>
        match parse_maxspeed (some vs) with
        | Except.error e => Except.error e
        | Except.ok none => Except.ok none
        | Except.ok (some q) => Except.ok (some (PyFloat.num q))

/-- infer_speed_kph from the script: maxspeed attempt, then the class table
with default 50.0, then the final 50.0 fallback. -/
def infer_speed_kph (row : Row) : Except String PyFloat :=
  match infer_maxspeed_step row with
  | Except.error e => Except.error e
  | Except.ok (some f) => Except.ok f
  | Except.ok none =>
    match findVal row isHighwayCol with
    | none => Except.ok (PyFloat.num 50)
    | some rt => Except.ok (PyFloat.num (default_speed_get rt))

/-- get_oneway_code from the script. -/
def get_oneway_code (row : Row) : String :=
  match findVal row isOnewayCol with
  | none => "B"
  | some val =>
    if pyUpper (pyStrip (pyStr val)) = "F" ∨ pyUpper (pyStrip (pyStr val)) = "T"
        ∨ pyUpper (pyStrip (pyStr val)) = "B" then
      pyUpper (pyStrip (pyStr val))
    else
      "B"

/-- Geometry model: a LineString carries its coordinate list and its shapely
length attribute (an abstract nonnegative quantity the script never
recomputes); a MultiLineString carries its component lines. A cell holding no
geometry at all is the none of Option Geometry at the use sites. -/
inductive Geometry where
  | lineString (coords : List Pt) (len : ℚ)
  | multiLineString (lines : List (List Pt × ℚ))
deriving DecidableEq

/-- Shapely is_empty: a LineString with no coordinates, or a MultiLineString
with no components. -/
def Geometry.is_empty : Geometry → Bool
  | Geometry.lineString coords _ => coords.isEmpty
  | Geometry.multiLineString lines => lines.isEmpty

/-- Shapely length attribute of a geometry. -/
def Geometry.length : Geometry → ℚ
  | Geometry.lineString _ len => len
  | Geometry.multiLineString lines => (lines.map Prod.snd).sum

/-- Body of the per-line yield: if len(coords) is at least 2, one segment from
coords[0] to coords[-1] with the line's length, else nothing. -/
def endpoints_seg (coords : List Pt) (len : ℚ) : List Segment :=
  match coords with
  | c0 :: c1 :: rest => [(c0, rest.getLastD c1, len)]
  | _ => []

/-- Loop over the component lines of a MultiLineString, in order. -/
def segs_of_lines : List (List Pt × ℚ) → List Segment
  | [] => []
  | pl :: rest => endpoints_seg pl.1 pl.2 ++ segs_of_lines rest

/-- geometry_to_segments from the script, with the yielded stream as a list. -/
def geometry_to_segments (g : Option Geometry) : List Segment :=
  match g with
  | none => []
  | some g0 =>
    if g0.is_empty then []
    else
      match g0 with
      | Geometry.lineString coords len => endpoints_seg coords len
      | Geometry.multiLineString lines => segs_of_lines lines

/-- One processed dataframe row: its attribute cells and its geometry cell. -/
structure ProcRow where
  attrs : Row
  geom : Option Geometry
deriving DecidableEq

/-- The dataframe: its column list and its rows. -/
structure DataFrame where
  columns : List String
  rows : List ProcRow

/-- Row value of the computed length_m column: the geometry length. A row
with no geometry contributes no segments, so the 0 placeholder is never
attached to an edge. -/
def row_length (r : ProcRow) : ℚ :=
  match r.geom with
  | none => 0
  | some g => g.length

/-- GeoDataFrame.explode with ignore_index: a MultiLineString row becomes one
row per component line; every other row is kept as it is. -/
def explode_row (r : ProcRow) : List ProcRow :=
  match r.geom with
  | some (Geometry.multiLineString (pl :: pls)) =>
    (pl :: pls).map (fun q => ProcRow.mk r.attrs (some (Geometry.lineString q.1 q.2)))
  | _ => [r]

def explode_all : List ProcRow → List ProcRow
  | [] => []
  | r :: rest => explode_row r ++ explode_all rest

/-- driveable_classes list from the script, verbatim. -/
def driveable_classes : List String :=
  ["motorway", "trunk", "primary", "secondary", "tertiary",
   "unclassified", "residential", "living_street", "pedestrian",
   "motorway_link", "trunk_link", "primary_link",
   "secondary_link", "tertiary_link",
   "service", "track",
   "track_grade1", "track_grade2", "track_grade3", "track_grade4", "track_grade5",
   "bridleway", "cycleway", "footway", "path", "steps",
   "busway"]

/-- Filter roads[roads[highway_col].isin(driveable_classes)]; the isin test is
false on None and on an absent cell. -/
def is_driveable_row (hcol : String) (r : ProcRow) : Bool :=
  match findVal r.attrs (fun c => c == hcol) with
  | some (some s) => driveable_classes.contains s
  | _ => false

/-- One directed graph edge as G.add_edge builds it: endpoints plus exactly
the four attribute keywords length_m, speed_kph, travel_time_s and highway. -/
structure Edge where
  src : Pt
  dst : Pt
  length_m : ℚ
  speed_kph : PyFloat
  travel_time_s : PyFloat
  highway : PyVal
deriving DecidableEq

/-- Guard line of main: cells with speed_kph compared less-or-equal zero are
set to 50.0; a NaN comparison is false, so NaN cells pass unchanged. -/
def guard_speed (f : PyFloat) : PyFloat :=
  if pyLeZero f then PyFloat.num 50 else f

/-- Edge additions for one segment: forward for F or B, reverse for T or B. -/
def segment_edges (ow : String) (u v : Pt) (len : ℚ) (sp tt : PyFloat) (rt : PyVal) : List Edge :=
  (if ow = "F" ∨ ow = "B" then [Edge.mk u v len sp tt rt] else [])
    ++ (if ow = "T" ∨ ow = "B" then [Edge.mk v u len sp tt rt] else [])

/-- Loop over the segments of one row's geometry, adding edges in order. -/
def edges_of_segs (ow : String) (sp tt : PyFloat) (rt : PyVal) : List Segment → List Edge
  | [] => []
  | s :: rest => segment_edges ow s.1 s.2.1 s.2.2 sp tt rt ++ edges_of_segs ow sp tt rt rest

/-- All per-row work of main after explode: speed inference (whose ValueError
propagates), the zero/negative guard, the travel-time formula
length_m / (speed_kph * 1000 / 3600), the road class cell, the one-way code,
and the edge additions for each segment of the row's geometry. -/
def process_row (hcol : String) (r : ProcRow) : Except String (List Edge) :=
  match infer_speed_kph r.attrs with
  | Except.error e => Except.error e
  | Except.ok sp =>
    Except.ok (edges_of_segs (get_oneway_code r.attrs)
      (guard_speed sp)
      (pyDivQF (row_length r) (pyDivByQ (pyMulQ (guard_speed sp) 1000) 3600))
      ((findVal r.attrs (fun c => c == hcol)).getD none)
      (geometry_to_segments r.geom))

/-- Row loop of main: the first ValueError aborts the whole run (in the script
the speed column is computed for every row before any edge is added, so a
failing row means the run raises and no graph is produced). -/
def build_edges (hcol : String) : List ProcRow → Except String (List Edge)
  | [] => Except.ok []
  | r :: rest =>
    match process_row hcol r, build_edges hcol rest with
    | Except.error e, _ => Except.error e
    | _, Except.error e => Except.error e
    | Except.ok la, Except.ok lb => Except.ok (la ++ lb)

def noColumnError : String :=
  "ValueError: Could not find a highway or fclass column in the roads data."

/-- Data-dependent part of main, after the input-file existence check (the
bounding-box branch is compiled out since USE_BBOX is False): locate the road
class column or raise ValueError, filter to drivable classes, explode
multi-part geometries, then infer attributes and add edges row by row. The
resulting list is the stream of add_edge calls the script performs. -/
def build_graph (df : DataFrame) : Except String (List Edge) :=
  match List.find? isHighwayCol df.columns with
  | none => Except.error noColumnError
  | some hcol =>
    build_edges hcol (explode_all (df.rows.filter (is_driveable_row hcol)))

/-- A LineString behaves like its endpoint extraction whether or not empty. -/
lemma gts_lineString (c : List Pt) (l : ℚ) :
    geometry_to_segments (some (Geometry.lineString c l)) = endpoints_seg c l := by
  cases c with
  | nil => rfl
  | cons a as => rfl

lemma segs_of_lines_foldr (lines : List (List Pt × ℚ)) :
    segs_of_lines lines
      = lines.foldr (fun pl acc =>
          geometry_to_segments (some (Geometry.lineString pl.1 pl.2)) ++ acc) [] := by
  induction lines with
  | nil => rfl
  | cons pl pls ih => simp [segs_of_lines, gts_lineString, ih]

lemma gts_multi (lines : List (List Pt × ℚ)) :
    geometry_to_segments (some (Geometry.multiLineString lines)) = segs_of_lines lines := by
  cases lines with
  | nil => rfl
  | cons pl pls => rfl

lemma endpoints_seg_short (coords : List Pt) (len : ℚ) (h : coords.length < 2) :
    endpoints_seg coords len = [] := by
  rcases coords with _ | ⟨c0, _ | ⟨c1, rest⟩⟩
  · rfl
  · rfl
  · simp at h
    omega

lemma endpoints_seg_len (coords : List Pt) (len : ℚ) (s : Segment)
    (h : s ∈ endpoints_seg coords len) : s.2.2 = len := by
  rcases coords with _ | ⟨c0, _ | ⟨c1, rest⟩⟩
  · simp [endpoints_seg] at h
  · simp [endpoints_seg] at h
  · simp [endpoints_seg] at h
    subst h
    rfl

/-- C5: for every LineString geometry with at least two coordinates,
geometry_to_segments yields exactly one segment made of the first coordinate,
the last coordinate and the geometry length, ignoring interior vertices; for a
MultiLineString it yields the per-component segments in component order, each
component treated exactly like a LineString. -/
theorem c5_segment_endpoints (c0 c1 : Pt) (rest : List Pt) (len : ℚ)
    (lines : List (List Pt × ℚ)) :
    geometry_to_segments (some (Geometry.lineString (c0 :: c1 :: rest) len))
      = [(c0, rest.getLastD c1, len)]
    ∧ geometry_to_segments (some (Geometry.multiLineString lines))
      = lines.foldr (fun pl acc =>
          geometry_to_segments (some (Geometry.lineString pl.1 pl.2)) ++ acc) [] := by
  constructor
  · rfl
  · rw [gts_multi]
    exact segs_of_lines_foldr lines

/-- C10: geometry_to_segments yields nothing for a missing geometry, an empty
geometry, or a line (or component) with fewer than two coordinates, and a row
whose geometry yields no segments contributes no edges. -/
theorem c10_degenerate_geometry :
    geometry_to_segments none = []
    ∧ (∀ g : Geometry, g.is_empty = true → geometry_to_segments (some g) = [])
    ∧ (∀ (coords : List Pt) (len : ℚ), coords.length < 2 →
        geometry_to_segments (some (Geometry.lineString coords len)) = [])
    ∧ (∀ lines : List (List Pt × ℚ), (∀ pl ∈ lines, pl.1.length < 2) →
        geometry_to_segments (some (Geometry.multiLineString lines)) = [])
    ∧ (∀ (hcol : String) (r : ProcRow) (res : List Edge),
        process_row hcol r = Except.ok res → geometry_to_segments r.geom = [] → res = []) := by
  refine ⟨rfl, ?_, ?_, ?_, ?_⟩
  · intro g h
    simp [geometry_to_segments, h]
  · intro coords len h
    rw [gts_lineString]
    exact endpoints_seg_short coords len h
  · intro lines h
    rw [gts_multi]
    induction lines with
    | nil => rfl
    | cons pl pls ih =>
      simp only [segs_of_lines]
      rw [endpoints_seg_short pl.1 pl.2 (h pl (List.mem_cons_self pl pls))]
      rw [ih (fun q hq => h q (List.mem_cons_of_mem pl hq))]
      rfl
  · intro hcol r res h hg
    simp only [process_row] at h
    split at h
    · exact Except.noConfusion h
    · injection h with h2
      rw [← h2, hg]
      rfl

/-- C1: the claimed fallback (maxspeed if parseable, else class table, else
50.0) is broken by the script at a maxspeed value whose digit/dot run is not a
valid number. On the row with maxspeed dot and fclass residential the claim
demands the table value 40.0, but float raises ValueError inside
parse_maxspeed, escaping infer_speed_kph, contradicting the documented intent
of both helpers. -/
theorem c1_infer_speed_raises_on_dot :
    infer_speed_kph [("maxspeed", some "."), ("fclass", some "residential")]
      = Except.error floatValueError := rfl

/-- C3: the claimed totality of the helpers fails: parse_maxspeed raises
ValueError on a value made only of a dot (float of the extracted run raises),
and the exception escapes infer_speed_kph as well, although the docstring of
parse_maxspeed promises that weird strings are handled safely. -/
theorem c3_helpers_not_total :
    parse_maxspeed (some ".") = Except.error floatValueError
    ∧ infer_speed_kph [("maxspeed", some ".")] = Except.error floatValueError :=
  ⟨rfl, rfl⟩

/-- C6: parse_maxspeed does not always turn the first digit/dot run into a
number: when the run holds several dots the float conversion raises
ValueError instead of returning, so the claimed total description fails. -/
theorem c6_parse_maxspeed_raises_on_multidot :
    parse_maxspeed (some "1.2.3") = Except.error floatValueError := rfl

/-- C2: per processed segment the script adds exactly the forward edge for
code F, exactly the reverse edge for code T, and both for code B; the code is
read from the first column whose lowercased name is oneway, the cell is
normalised by strip and upper (so the match is case-insensitive), a missing
column gives B, and any normalised value other than F, T, B gives B. -/
theorem c2_oneway_edge_construction (row : Row) (u v : Pt) (len : ℚ)
    (sp tt : PyFloat) (rt : PyVal) :
    segment_edges "F" u v len sp tt rt = [Edge.mk u v len sp tt rt]
    ∧ segment_edges "T" u v len sp tt rt = [Edge.mk v u len sp tt rt]
    ∧ segment_edges "B" u v len sp tt rt
        = [Edge.mk u v len sp tt rt, Edge.mk v u len sp tt rt]
    ∧ (findVal row isOnewayCol = none → get_oneway_code row = "B")
    ∧ (∀ val : PyVal, findVal row isOnewayCol = some val →
        (pyUpper (pyStrip (pyStr val)) = "F" ∨ pyUpper (pyStrip (pyStr val)) = "T"
            ∨ pyUpper (pyStrip (pyStr val)) = "B" →
          get_oneway_code row = pyUpper (pyStrip (pyStr val)))
        ∧ (¬(pyUpper (pyStrip (pyStr val)) = "F" ∨ pyUpper (pyStrip (pyStr val)) = "T"
            ∨ pyUpper (pyStrip (pyStr val)) = "B") →
          get_oneway_code row = "B")) := by
  refine ⟨rfl, rfl, rfl, ?_, ?_⟩
  · intro h
    simp [get_oneway_code, h]
  · intro val h
    constructor
    · intro h2
      simp only [get_oneway_code, h]
      rw [if_pos h2]
    · intro h2
      simp only [get_oneway_code, h]
      rw [if_neg h2]

/-- C2 witness: a lowercase padded f in the oneway column is read as code F. -/
theorem c2_oneway_witness :
    get_oneway_code [("oneway", some " f ")] = pyUpper (pyStrip (pyStr (some " f "))) :=
  ((c2_oneway_edge_construction [("oneway", some " f ")] (0, 0) (1, 1) 1
      PyFloat.nan PyFloat.nan none).2.2.2.2 (some " f ") rfl).1 (by decide)

lemma oneway_code_cases (row : Row) :
    get_oneway_code row = "F" ∨ get_oneway_code row = "T" ∨ get_oneway_code row = "B" := by
  rcases h : findVal row isOnewayCol with _ | val
  · simp [get_oneway_code, h]
  · simp only [get_oneway_code, h]
    by_cases h2 : pyUpper (pyStrip (pyStr val)) = "F" ∨ pyUpper (pyStrip (pyStr val)) = "T"
        ∨ pyUpper (pyStrip (pyStr val)) = "B"
    · rw [if_pos h2]
      exact h2
    · rw [if_neg h2]
      simp

/-- C9: get_oneway_code always returns one of F, T, B; hence every segment
contributes at least one directed edge, and the ordered pair of additions u to
v and v to u happens exactly for code B. -/
theorem c9_oneway_code_total (row : Row) (u v : Pt) (len : ℚ)
    (sp tt : PyFloat) (rt : PyVal) :
    (get_oneway_code row = "F" ∨ get_oneway_code row = "T" ∨ get_oneway_code row = "B")
    ∧ 1 ≤ (segment_edges (get_oneway_code row) u v len sp tt rt).length
    ∧ (segment_edges (get_oneway_code row) u v len sp tt rt).map (fun e => (e.src, e.dst))
      = (if get_oneway_code row = "B" then [(u, v), (v, u)]
         else if get_oneway_code row = "F" then [(u, v)] else [(v, u)]) := by
  refine ⟨oneway_code_cases row, ?_, ?_⟩ <;>
    rcases oneway_code_cases row with h | h | h <;> rw [h] <;> simp [segment_edges]

lemma parse_maxspeed_error_msg (v : PyVal) (msg : String)
    (h : parse_maxspeed v = Except.error msg) : msg = floatValueError := by
  simp only [parse_maxspeed] at h
  repeat' split at h
  all_goals first
    | exact Except.noConfusion h
    | (injection h with h2; exact h2.symm)

lemma infer_step_error_msg (row : Row) (msg : String)
    (h : infer_maxspeed_step row = Except.error msg) : msg = floatValueError := by
  simp only [infer_maxspeed_step] at h
  repeat' split at h
  all_goals try exact Except.noConfusion h
  injection h with h2
  rw [← h2]
  exact parse_maxspeed_error_msg _ _ (by assumption)

lemma infer_error_msg (row : Row) (msg : String)
    (h : infer_speed_kph row = Except.error msg) : msg = floatValueError := by
  simp only [infer_speed_kph] at h
  repeat' split at h
  all_goals try exact Except.noConfusion h
  injection h with h2
  rw [← h2]
  exact infer_step_error_msg _ _ (by assumption)

lemma process_row_error_msg (hcol : String) (r : ProcRow) (msg : String)
    (h : process_row hcol r = Except.error msg) : msg = floatValueError := by
  simp only [process_row] at h
  split at h
  · injection h with h2
    rw [← h2]
    exact infer_error_msg _ _ (by assumption)
  · exact Except.noConfusion h

lemma build_edges_error_msg (hcol : String) (rows : List ProcRow) (msg : String)
    (h : build_edges hcol rows = Except.error msg) : msg = floatValueError := by
  induction rows with
  | nil => exact Except.noConfusion h
  | cons r rest ih =>
    simp only [build_edges] at h
    split at h
    · injection h with h2
      rw [← h2]
      exact process_row_error_msg _ _ _ (by assumption)
    · injection h with h2
      subst h2
      exact ih (by assumption)
    · exact Except.noConfusion h

/-- C4 counterexample: even with the input file present, the script raises on
data with no highway or fclass column, so the missing-file exception is not
its only explicit failure. -/
theorem c4_extra_failure_cex :
    build_graph (DataFrame.mk ["osm_id"] []) = Except.error noColumnError := rfl

/-- C4 amended: under the file-exists precondition the script can still
raise, but only in two ways: the explicit ValueError when no highway or
fclass column exists, and the ValueError escaping from speed parsing on a
maxspeed value whose digit/dot run is not a valid number. -/
theorem c4_error_modes (df : DataFrame) (msg : String)
    (h : build_graph df = Except.error msg) :
    msg = noColumnError ∨ msg = floatValueError := by
  simp only [build_graph] at h
  split at h
  · left
    injection h with h2
    exact h2.symm
  · right
    exact build_edges_error_msg _ _ _ h

/-- C4 witness: the amended statement applied to a dataframe with no road
class column. -/
theorem c4_error_modes_witness :
    noColumnError = noColumnError ∨ noColumnError = floatValueError :=
  c4_error_modes (DataFrame.mk ["name"] []) noColumnError rfl

lemma guard_speed_pos_or_nan (f : PyFloat) :
    pyGtZero (guard_speed f) = true ∨ guard_speed f = PyFloat.nan := by
  rcases f with q | _ | _ | _
  · rcases le_or_lt q 0 with hq | hq
    · left
      have hb : pyLeZero (PyFloat.num q) = true := by
        simp [pyLeZero, hq]
      simp [guard_speed, hb, pyGtZero]
    · left
      have hb : pyLeZero (PyFloat.num q) = false := by
        simp [pyLeZero]
        exact hq
      simp [guard_speed, hb, pyGtZero]
      exact hq
  · right
    rfl
  · left
    rfl
  · left
    rfl

lemma mem_segment_edges (e : Edge) (ow : String) (u v : Pt) (len : ℚ)
    (sp tt : PyFloat) (rt : PyVal) (h : e ∈ segment_edges ow u v len sp tt rt) :
    e = Edge.mk u v len sp tt rt ∨ e = Edge.mk v u len sp tt rt := by
  unfold segment_edges at h
  rcases List.mem_append.mp h with h2 | h2
  · left
    by_cases hc : ow = "F" ∨ ow = "B"
    · rw [if_pos hc] at h2
      simpa using h2
    · rw [if_neg hc] at h2
      simp at h2
  · right
    by_cases hc : ow = "T" ∨ ow = "B"
    · rw [if_pos hc] at h2
      simpa using h2
    · rw [if_neg hc] at h2
      simp at h2

lemma mem_edges_of_segs (e : Edge) (ow : String) (sp tt : PyFloat) (rt : PyVal)
    (segs : List Segment) (h : e ∈ edges_of_segs ow sp tt rt segs) :
    ∃ s ∈ segs, e ∈ segment_edges ow s.1 s.2.1 s.2.2 sp tt rt := by
  induction segs with
  | nil => simp [edges_of_segs] at h
  | cons s rest ih =>
    simp only [edges_of_segs] at h
    rcases List.mem_append.mp h with h2 | h2
    · exact ⟨s, List.mem_cons_self s rest, h2⟩
    · obtain ⟨t, ht, he⟩ := ih h2
      exact ⟨t, List.mem_cons_of_mem s ht, he⟩

lemma process_row_ok_shape (hcol : String) (r : ProcRow) (res : List Edge)
    (h : process_row hcol r = Except.ok res) :
    ∃ sp, infer_speed_kph r.attrs = Except.ok sp
      ∧ res = edges_of_segs (get_oneway_code r.attrs) (guard_speed sp)
          (pyDivQF (row_length r) (pyDivByQ (pyMulQ (guard_speed sp) 1000) 3600))
          ((findVal r.attrs (fun c => c == hcol)).getD none)
          (geometry_to_segments r.geom) := by
  simp only [process_row] at h
  split at h
  · exact Except.noConfusion h
  · injection h with h2
    exact ⟨_, by assumption, h2.symm⟩

lemma build_edges_ok_mem (hcol : String) (rows : List ProcRow) (res : List Edge)
    (e : Edge) (h : build_edges hcol rows = Except.ok res) (he : e ∈ res) :
    ∃ r, r ∈ rows ∧ ∃ la, process_row hcol r = Except.ok la ∧ e ∈ la := by
  induction rows generalizing res with
  | nil =>
    injection h with h2
    rw [← h2] at he
    simp at he
  | cons r rest ih =>
    simp only [build_edges] at h
    split at h
    · exact Except.noConfusion h
    · exact Except.noConfusion h
    · injection h with h2
      rw [← h2] at he
      rcases List.mem_append.mp he with h3 | h3
      · exact ⟨r, List.mem_cons_self r rest, _, by assumption, h3⟩
      · obtain ⟨r2, hr2, la2, hla2, he2⟩ := ih _ (by assumption) h3
        exact ⟨r2, List.mem_cons_of_mem r hr2, la2, hla2, he2⟩

lemma explode_all_mem (rows : List ProcRow) (r2 : ProcRow)
    (h : r2 ∈ explode_all rows) : ∃ r ∈ rows, r2 ∈ explode_row r := by
  induction rows with
  | nil => simp [explode_all] at h
  | cons r rest ih =>
    simp only [explode_all] at h
    rcases List.mem_append.mp h with h2 | h2
    · exact ⟨r, List.mem_cons_self r rest, h2⟩
    · obtain ⟨r3, hr3, h4⟩ := ih h2
      exact ⟨r3, List.mem_cons_of_mem r hr3, h4⟩

lemma seg_len_lineString (coords : List Pt) (len : ℚ) (s : Segment)
    (hs : s ∈ geometry_to_segments (some (Geometry.lineString coords len))) :
    s.2.2 = len := by
  rw [gts_lineString] at hs
  exact endpoints_seg_len coords len s hs

/-- Rows produced by explode carry simple geometries, so every segment length
coincides with the row's own length attribute. -/
lemma explode_row_seg_length (r r2 : ProcRow) (s : Segment)
    (h : r2 ∈ explode_row r) (hs : s ∈ geometry_to_segments r2.geom) :
    s.2.2 = row_length r2 := by
  rcases r with ⟨attrs, geom⟩
  rcases geom with _ | g
  · simp [explode_row] at h
    subst h
    simp [geometry_to_segments] at hs
  · rcases g with ⟨coords, len⟩ | lines
    · simp [explode_row] at h
      subst h
      rw [seg_len_lineString coords len s hs]
      rfl
    · rcases lines with _ | ⟨pl, pls⟩
      · simp [explode_row] at h
        subst h
        simp [geometry_to_segments, Geometry.is_empty] at hs
      · simp only [explode_row, List.mem_map] at h
        obtain ⟨q, hq, h2⟩ := h
        subst h2
        rw [seg_len_lineString q.1 q.2 s hs]
        rfl

/-- Every edge of a successful run originates in one exploded row with a
successfully inferred speed; its attribute fields are the guarded speed, the
segment length (which equals the row length), and the travel-time formula of
the script applied to the row length and the guarded speed. -/
lemma build_graph_edge_origin (df : DataFrame) (res : List Edge) (e : Edge)
    (h : build_graph df = Except.ok res) (he : e ∈ res) :
    ∃ (r : ProcRow) (sp : PyFloat) (s : Segment),
      infer_speed_kph r.attrs = Except.ok sp
      ∧ s ∈ geometry_to_segments r.geom
      ∧ s.2.2 = row_length r
      ∧ e.speed_kph = guard_speed sp
      ∧ e.length_m = s.2.2
      ∧ e.travel_time_s
          = pyDivQF (row_length r) (pyDivByQ (pyMulQ (guard_speed sp) 1000) 3600) := by
  simp only [build_graph] at h
  split at h
  · exact Except.noConfusion h
  · obtain ⟨r2, hr2, la, hla, hela⟩ := build_edges_ok_mem _ _ res e h he
    obtain ⟨sp, hsp, hres⟩ := process_row_ok_shape _ r2 la hla
    subst hres
    obtain ⟨s, hs, hseg⟩ := mem_edges_of_segs e _ _ _ _ _ hela
    obtain ⟨r0, hr0, hexp⟩ := explode_all_mem _ r2 hr2
    have hlen : s.2.2 = row_length r2 := explode_row_seg_length r0 r2 s hexp hs
    rcases mem_segment_edges e _ _ _ _ _ _ _ hseg with he2 | he2 <;> subst he2 <;>
      exact ⟨r2, sp, s, hsp, hs, hlen, rfl, rfl, rfl⟩

/-- C7 counterexample: a row whose maxspeed cell reads as NaN (a pandas
missing value prints and floats as nan) produces an edge whose speed_kph is
NaN, which is not strictly greater than zero, so the claimed invariant fails
on the code. -/
theorem c7_nan_speed_cex :
    build_graph (DataFrame.mk ["fclass", "maxspeed", "oneway"]
        [ProcRow.mk
          [("fclass", some "residential"), ("maxspeed", some "nan"), ("oneway", some "F")]
          (some (Geometry.lineString [(0, 0), (1, 0)] 1))])
      = Except.ok [Edge.mk (0, 0) (1, 0) 1 PyFloat.nan PyFloat.nan (some "residential")]
    ∧ pyGtZero PyFloat.nan = false :=
  ⟨rfl, rfl⟩

/-- C7 amended: after the guard every speed is strictly positive or NaN: the
guard replaces any speed comparing less-or-equal zero by 50.0, but a NaN
speed passes the comparison unchanged, so every edge of a successful run
carries a speed_kph that is strictly positive unless it is NaN. -/
theorem c7_speed_positive_or_nan :
    (∀ f : PyFloat, pyGtZero (guard_speed f) = true ∨ guard_speed f = PyFloat.nan)
    ∧ ∀ (df : DataFrame) (res : List Edge) (e : Edge),
        build_graph df = Except.ok res → e ∈ res →
        pyGtZero e.speed_kph = true ∨ e.speed_kph = PyFloat.nan := by
  constructor
  · exact guard_speed_pos_or_nan
  · intro df res e h he
    obtain ⟨r, sp, s, _, _, _, hspeed, _, _⟩ := build_graph_edge_origin df res e h he
    rw [hspeed]
    exact guard_speed_pos_or_nan sp

/-- C7 witness: the amended statement applied to a one-row run whose edge
carries speed 40. -/
theorem c7_speed_positive_witness :
    pyGtZero (PyFloat.num 40) = true ∨ PyFloat.num 40 = PyFloat.nan :=
  c7_speed_positive_or_nan.2
    (DataFrame.mk ["fclass", "oneway"]
      [ProcRow.mk [("fclass", some "residential"), ("oneway", some "F")]
        (some (Geometry.lineString [(0, 0), (1, 0)] 1))])
    [Edge.mk (0, 0) (1, 0) 1 (PyFloat.num 40) (PyFloat.num (9 / 100)) (some "residential")]
    (Edge.mk (0, 0) (1, 0) 1 (PyFloat.num 40) (PyFloat.num (9 / 100)) (some "residential"))
    (by with_unfolding_all rfl) (List.mem_singleton.mpr rfl)

/-- C8: every edge of a successful run satisfies the travel-time equation
travel_time_s equals length_m divided by speed_kph times 1000 over 3600 (the
row length equals the edge segment length because geometries are exploded to
simple LineStrings first); the edge record carries exactly the four
attributes length_m, speed_kph, travel_time_s and highway by the Edge
structure, which mirrors the add_edge keywords. -/
theorem c8_edge_travel_time (df : DataFrame) (res : List Edge) (e : Edge)
    (h : build_graph df = Except.ok res) (he : e ∈ res) :
    e.travel_time_s = pyDivQF e.length_m (pyDivByQ (pyMulQ e.speed_kph 1000) 3600) := by
  obtain ⟨r, sp, s, _, _, hlen, hspeed, hlm, htt⟩ := build_graph_edge_origin df res e h he
  rw [htt, hspeed, hlm, hlen]

/-- C8 witness: the equation applied to a one-row run with length 5 and
table speed 40, whose travel time is 9 over 20 seconds. -/
theorem c8_edge_travel_time_witness :
    (Edge.mk (0, 0) (3, 4) 5 (PyFloat.num 40) (PyFloat.num (9 / 20))
        (some "residential")).travel_time_s
      = pyDivQF
          (Edge.mk (0, 0) (3, 4) 5 (PyFloat.num 40) (PyFloat.num (9 / 20))
            (some "residential")).length_m
          (pyDivByQ
            (pyMulQ
              (Edge.mk (0, 0) (3, 4) 5 (PyFloat.num 40) (PyFloat.num (9 / 20))
                (some "residential")).speed_kph 1000) 3600) :=
  c8_edge_travel_time
    (DataFrame.mk ["fclass", "oneway"]
      [ProcRow.mk [("fclass", some "residential"), ("oneway", some "F")]
        (some (Geometry.lineString [(0, 0), (3, 4)] 5))])
    [Edge.mk (0, 0) (3, 4) 5 (PyFloat.num 40) (PyFloat.num (9 / 20)) (some "residential")]
    (Edge.mk (0, 0) (3, 4) 5 (PyFloat.num 40) (PyFloat.num (9 / 20)) (some "residential"))
    (by with_unfolding_all rfl) (List.mem_singleton.mpr rfl)

/-- C10 witness: the degenerate cases applied to an empty MultiLineString, a
one-point LineString, and a geometry-less row that contributes no edges. -/
theorem c10_degenerate_witness :
    geometry_to_segments (some (Geometry.multiLineString [])) = []
    ∧ geometry_to_segments (some (Geometry.lineString [((0 : ℚ), (0 : ℚ))] 5)) = []
    ∧ ([] : List Edge) = [] :=
  ⟨c10_degenerate_geometry.2.1 (Geometry.multiLineString []) rfl,
   c10_degenerate_geometry.2.2.1 [((0 : ℚ), (0 : ℚ))] 5 (by decide),
   c10_degenerate_geometry.2.2.2.2 "fclass"
     (ProcRow.mk [("fclass", some "primary")] none) [] rfl rfl⟩
